import Mathlib

/-!
Verification of the build-status aggregation logic of the Agent Build Status API
(source: src/main.py).

Modelling conventions for the shallow embedding:
* Timestamps are integers counting microseconds since the epoch (Python
  datetime carries microsecond precision); timestamp subtraction is exact.
  Python computes durations as int((delta).total_seconds() * 1000), which in
  exact arithmetic is the microsecond difference divided by 1000 and truncated
  toward zero; floating-point noise of total_seconds is not modelled.
* The event store is a list in insertion order; the auto-incrementing id of a
  row equals its insertion position, so ORDER BY id DESC picks the last
  matching element of the list.
* Python dictionaries preserve insertion order; they are modelled as
  association lists with get-or-append semantics.
* Python truthiness matters in several places of the source (not item.phase,
  not item.duration_ms, if environment:); it is modelled explicitly by the
  optStrFalsy / optIntFalsy helpers.
-/

namespace BuildApi

/-- Substring test on lists of characters, the semantics of the Python
membership test pat in s. -/
def listContains (pat : List Char) : List Char → Bool
  | [] => pat.isEmpty
  | c :: t => pat.isPrefixOf (c :: t) || listContains pat t

/-- Python substring containment pat in s. -/
def strIn (pat s : String) : Bool := listContains pat.toList s.toList

/-- Python truthiness of an Optional[str]: None and the empty string are falsy. -/
def optStrFalsy : Option String → Bool
  | none => true
  | some s => s == ""

/-- Python truthiness of an Optional[int]: None and 0 are falsy. -/
def optIntFalsy : Option Int → Bool
  | none => true
  | some n => n == 0

/-- Python int() applied to the exact value d/1000: division truncated toward
zero, as in int((delta).total_seconds() * 1000) with d the microsecond delta. -/
def truncDivMs (d : Int) : Int := d.sign * ((d.natAbs / 1000 : Nat) : Int)

/-- A stored build-status row (response model BuildStatus of main.py). -/
structure BuildStatus where
  id : Nat
  agent_version_id : String
  build_id : String
  phase : Option String
  step : String
  step_number : Option Int
  status : String
  message : String
  timestamp : Int
  environment : String
  duration_ms : Option Int
deriving DecidableEq

/-- The POST /build-status payload (model BuildStatusCreate of main.py), after
pydantic defaulting of the timestamp. -/
structure BuildStatusCreate where
  agent_version_id : String
  build_id : String
  phase : Option String
  step : String
  step_number : Option Int
  status : String
  message : String
  timestamp : Int
  environment : String
  duration_ms : Option Int
deriving DecidableEq

/-- The static step-to-phase classification table of create_build_status
(the phases dict of main.py lines 125-130, in insertion order). -/
def phasePatterns : List (String × List String) :=
  [("Install", ["InstallDependencies", "ECRLogin"]),
   ("PreBuild", ["DownloadAgent", "ExtractAgent"]),
   ("Build", ["BuildImage"]),
   ("PostBuild", ["TagImage", "PushImage"])]

/-- Phase produced by the phase-inference block of create_build_status
(main.py lines 117-135). The guard is the Python test
if not item.phase and item.step. -/
def inferred_phase (item : BuildStatusCreate) : Option String :=
  if optStrFalsy item.phase && item.step != "" then
    if strIn "Phase" item.step then some item.step
    else if item.step == "BuildProcess" then some "Overall"
    else
      match phasePatterns.find? (fun c => c.2.any (fun name => strIn name item.step)) with
      | some c => some (c.1 ++ "Phase")
      | none => item.phase
  else item.phase

def enrich_phase (item : BuildStatusCreate) : BuildStatusCreate :=
  { item with phase := inferred_phase item }

/-- SELECT ... ORDER BY id DESC LIMIT 1 over the insertion-ordered store. -/
def lastWhere (p : BuildStatus → Bool) (store : List BuildStatus) : Option BuildStatus :=
  store.reverse.find? p

/-- SQL MAX over the non-null step_number values of a list (NULL when none). -/
def sqlMaxInt : List Int → Option Int
  | [] => none
  | n :: t =>
    match sqlMaxInt t with
    | none => some n
    | some m => some (max n m)

/-- SELECT MAX(step_number) FROM build_status WHERE build_id = bid. -/
def max_step_number (store : List BuildStatus) (bid : String) : Option Int :=
  sqlMaxInt ((store.filter (fun e => e.build_id == bid)).filterMap (fun e => e.step_number))

/-- Step number produced by the numbering block of create_build_status
(main.py lines 137-162). The Python max_step or 0 equals getD 0 since
0 or 0 is again 0. -/
def inferred_step_number (store : List BuildStatus) (item : BuildStatusCreate) : Option Int :=
  match item.step_number with
  | some n => some n
  | none =>
    match lastWhere (fun e => e.build_id == item.build_id && e.step == item.step) store with
    | some e =>
      match e.step_number with
      | some n => some n
      | none => some ((max_step_number store item.build_id).getD 0 + 1)
    | none => some ((max_step_number store item.build_id).getD 0 + 1)

def enrich_step_number (store : List BuildStatus) (item : BuildStatusCreate) : BuildStatusCreate :=
  { item with step_number := inferred_step_number store item }

/-- Duration produced by the duration block of create_build_status
(main.py lines 164-179). The guard is the Python test
item.status in ["Success", "Failed"] and not item.duration_ms. -/
def inferred_duration (store : List BuildStatus) (item : BuildStatusCreate) : Option Int :=
  if (item.status == "Success" || item.status == "Failed") && optIntFalsy item.duration_ms then
    match lastWhere (fun e => e.build_id == item.build_id && e.step == item.step
        && e.status == "Started") store with
    | some e => some (truncDivMs (item.timestamp - e.timestamp))
    | none => item.duration_ms
  else item.duration_ms

def enrich_duration (store : List BuildStatus) (item : BuildStatusCreate) : BuildStatusCreate :=
  { item with duration_ms := inferred_duration store item }

/-- Row inserted for an enriched payload; the assigned id is the next
insertion position. -/
def insertedRow (store : List BuildStatus) (it : BuildStatusCreate) : BuildStatus :=
  { id := store.length + 1, agent_version_id := it.agent_version_id,
    build_id := it.build_id, phase := it.phase, step := it.step,
    step_number := it.step_number, status := it.status, message := it.message,
    timestamp := it.timestamp, environment := it.environment,
    duration_ms := it.duration_ms }

/-- POST /build-status (main.py lines 112-199): enrich phase, then step
number, then duration, then insert; returns the stored row and the new store. -/
def create_build_status (store : List BuildStatus) (item : BuildStatusCreate) :
    BuildStatus × List BuildStatus :=
  let it := enrich_duration store (enrich_step_number store (enrich_phase item))
  let e := insertedRow store it
  (e, store ++ [e])

/-! ### Hierarchical summary (GET /build-status/summary, main.py lines 243-368) -/

/-- Per-step entry of the nested summary. -/
structure StepSummary where
  status : String
  step_number : Option Int
  message : String
  started_at : Option Int
  completed_at : Option Int
  duration_ms : Option Int
deriving DecidableEq

/-- Per-phase entry of the nested summary; steps is an insertion-ordered dict. -/
structure PhaseSummary where
  status : String
  steps : List (String × StepSummary)
  started_at : Option Int
  completed_at : Option Int
  duration_ms : Option Int
deriving DecidableEq

/-- The response model BuildStatusSummary of main.py; phases is an
insertion-ordered dict. -/
structure Summary where
  build_id : String
  environment : String
  overall_status : String
  phases : List (String × PhaseSummary)
  started_at : Option Int
  completed_at : Option Int
  total_duration_ms : Option Int
deriving DecidableEq

/-- The fold state: the summary under construction plus the two local
variables overall_started and overall_completed of the Python loop. -/
structure FoldState where
  summary : Summary
  overall_started : Option Int
  overall_completed : Option Int
deriving DecidableEq

/-- Ordered-dict lookup. -/
def lookupA {α : Type} (l : List (String × α)) (k : String) : Option α :=
  (l.find? (fun p => p.1 == k)).map Prod.snd

/-- Ordered-dict overwrite of the value at an existing key. -/
def setA {α : Type} (l : List (String × α)) (k : String) (v : α) : List (String × α) :=
  l.map (fun p => if p.1 == k then (k, v) else p)

/-- Ordered-dict get-or-create: append the default at the end when absent. -/
def insertIfAbsent {α : Type} (l : List (String × α)) (k : String) (v : α) :
    List (String × α) :=
  if (lookupA l k).isSome then l else l ++ [(k, v)]

/-- Grouping key of a record in the summary: record["phase"] or "Unknown",
so a NULL or empty phase both group under Unknown (Python truthiness). -/
def pyPhaseName : Option String → String
  | none => "Unknown"
  | some s => if s == "" then "Unknown" else s

/-- Fresh phase entry (main.py lines 289-296). -/
def initPhase : PhaseSummary :=
  { status := "Not Started", steps := [], started_at := none,
    completed_at := none, duration_ms := none }

/-- Fresh step entry for a record (main.py lines 301-309). -/
def initStep (r : BuildStatus) : StepSummary :=
  { status := r.status, step_number := r.step_number, message := r.message,
    started_at := none, completed_at := none, duration_ms := r.duration_ms }

/-- Phase status recomputation after every event (main.py lines 347-353);
old is the previous status, kept when no branch applies. -/
def phaseStatusRecompute (steps : List (String × StepSummary)) (old : String) : String :=
  if steps.any (fun q => q.2.status == "Failed") then "Failed"
  else if steps.all (fun q => q.2.status == "Success") then "Success"
  else if steps.any (fun q => q.2.status == "Started") then "In Progress"
  else old

/-- Step-level mutations for one record: the unconditional status/message
overwrite (lines 313-315) and the timestamp bookkeeping of the Started and
terminal branches (lines 318-331). -/
def stepAfter (r : BuildStatus) (s0 : StepSummary) : StepSummary :=
  let s := { s0 with status := r.status, message := r.message }
  if r.status == "Started" then
    if s.started_at.isNone then { s with started_at := some r.timestamp } else s
  else if r.status == "Success" || r.status == "Failed" then
    { s with completed_at := some r.timestamp, duration_ms := r.duration_ms }
  else s

/-- Phase-level timestamp bookkeeping for one record; steps2 is the phase step
dict after the current step was mutated in place, as seen by the Python
all(...) test of line 334. -/
def phaseTimestamps (r : BuildStatus) (p : PhaseSummary)
    (steps2 : List (String × StepSummary)) : PhaseSummary :=
  if r.status == "Started" then
    if p.started_at.isNone then { p with started_at := some r.timestamp } else p
  else if r.status == "Success" || r.status == "Failed" then
    if steps2.all (fun q => q.2.status == "Success" || q.2.status == "Failed") then
      let p1 := { p with completed_at := some r.timestamp }
      match p1.started_at with
      | some t0 => { p1 with duration_ms := some (truncDivMs (r.timestamp - t0)) }
      | none => p1
    else p
  else p

/-- Build-level bookkeeping for one record: the BuildProcess sentinel updates
of overall_started, overall_completed, started_at, completed_at and the
in-pass overall_status assignment (lines 325-327 and 342-345). -/
def topAfter (r : BuildStatus) (st : FoldState) : FoldState :=
  if r.status == "Started" then
    if r.step == "BuildProcess" && st.overall_started.isNone then
      { st with overall_started := some r.timestamp,
                summary := { st.summary with started_at := some r.timestamp } }
    else st
  else if r.status == "Success" || r.status == "Failed" then
    if r.step == "BuildProcess" then
      { st with overall_completed := some r.timestamp,
                summary := { st.summary with
                  completed_at := some r.timestamp, overall_status := r.status } }
    else st
  else st

/-- The fully updated phase entry for one record: get-or-create the phase and
the step, mutate the step, recompute timestamps and then the phase status. -/
def updatedPhase (st : FoldState) (r : BuildStatus) : PhaseSummary :=
  let pname := pyPhaseName r.phase
  let phases1 := insertIfAbsent st.summary.phases pname initPhase
  let phase0 := (lookupA phases1 pname).getD initPhase
  let steps1 := insertIfAbsent phase0.steps r.step (initStep r)
  let step0 := (lookupA steps1 r.step).getD (initStep r)
  let steps2 := setA steps1 r.step (stepAfter r step0)
  let p1 := phaseTimestamps r phase0 steps2
  { p1 with steps := steps2, status := phaseStatusRecompute steps2 p1.status }

/-- One iteration of the for record in records loop (main.py lines 284-353). -/
def processRecord (st : FoldState) (r : BuildStatus) : FoldState :=
  let st1 := topAfter r st
  { st1 with summary := { st1.summary with
      phases := setA (insertIfAbsent st.summary.phases (pyPhaseName r.phase) initPhase)
                     (pyPhaseName r.phase) (updatedPhase st r) } }

/-- Initial summary value (main.py lines 270-278). -/
def initSummary (bid env : String) : Summary :=
  { build_id := bid, environment := env, overall_status := "In Progress",
    phases := [], started_at := none, completed_at := none,
    total_duration_ms := none }

def initFold (bid env : String) : FoldState :=
  { summary := initSummary bid env, overall_started := none,
    overall_completed := none }

/-- Post-pass fixups (main.py lines 355-363): total duration when both overall
markers are set, then the final overall-status rollup. NOTE the faithful
rendering of line 362: the source filter if p != "Overall" compares each phase
summary dict with the string "Overall", which is always true, so no phase is
excluded from the all(...) test. -/
def finalize (st : FoldState) : Summary :=
  let s0 := st.summary
  let s1 :=
    match st.overall_started, st.overall_completed with
    | some t0, some t1 => { s0 with total_duration_ms := some (truncDivMs (t1 - t0)) }
    | _, _ => s0
  if s1.phases.any (fun p => p.2.status == "Failed") then
    { s1 with overall_status := "Failed" }
  else if s1.phases.all (fun p => p.2.status == "Success") then
    { s1 with overall_status := "Success" }
  else s1

/-- HTTP failure result (HTTPException of FastAPI). -/
structure HTTPError where
  status_code : Nat
  detail : String
deriving DecidableEq

/-- The WHERE clause of the summary query: build_id always filters, the
optional environment filters only when truthy (if environment:). -/
def matchesQuery (bid : String) (env : Option String) (e : BuildStatus) : Bool :=
  e.build_id == bid &&
    (match env with
     | none => true
     | some v => if v == "" then true else e.environment == v)

/-- ORDER BY timestamp ASC, modelled as an insertion sort; relative order of
equal timestamps is unspecified in SQL. -/
def insertByTs (e : BuildStatus) : List BuildStatus → List BuildStatus
  | [] => [e]
  | f :: t => if e.timestamp ≤ f.timestamp then e :: f :: t else f :: insertByTs e t

def sortByTs : List BuildStatus → List BuildStatus
  | [] => []
  | e :: t => insertByTs e (sortByTs t)

/-- GET /build-status/summary (main.py lines 243-368): 404 when the filtered
record set is empty, else fold the time-ordered records and finalize. -/
def get_build_status_summary (store : List BuildStatus) (bid : String)
    (env : Option String) : Except HTTPError Summary :=
  match sortByTs (store.filter (matchesQuery bid env)) with
  | [] =>
    Except.error
      { status_code := 404, detail := "No build status found for build_id: " ++ bid }
  | r :: rest =>
    Except.ok (finalize ((r :: rest).foldl processRecord (initFold bid r.environment)))

/-! ### BuildInfo upsert (POST /build-info, main.py lines 401-445) -/

/-- The POST /build-info payload (model BuildInfo of main.py). -/
structure BuildInfo where
  agent_version_id : String
  agent_uuid : String
  version : String
  image_url : String
deriving DecidableEq

/-- A stored build_info row (model BuildInfoResponse of main.py). -/
structure BuildInfoResponse where
  id : Nat
  agent_version_id : String
  agent_uuid : String
  version : String
  image_url : String
  timestamp : Int
deriving DecidableEq

/-- The identity-key match of the upsert lookup (main.py lines 407-413). -/
def keyB (item : BuildInfo) (r : BuildInfoResponse) : Bool :=
  r.agent_version_id == item.agent_version_id && r.agent_uuid == item.agent_uuid
    && r.version == item.version

/-- Two rows carry the same identity key. -/
def sameKeyB (r1 r2 : BuildInfoResponse) : Bool :=
  r1.agent_version_id == r2.agent_version_id && r1.agent_uuid == r2.agent_uuid
    && r1.version == r2.version

/-- Row inserted on first submission; the timestamp of a fresh row is set by
the database column default, outside src, hence the initTs parameter. -/
def newBuildInfoResponse (item : BuildInfo) (freshId : Nat) (initTs : Int) :
    BuildInfoResponse :=
  { id := freshId, agent_version_id := item.agent_version_id,
    agent_uuid := item.agent_uuid, version := item.version,
    image_url := item.image_url, timestamp := initTs }

/-- POST /build-info (main.py lines 401-445): look up a row with the identity
key; update image_url and timestamp = CURRENT_TIMESTAMP in place when found,
insert a new row otherwise. now models CURRENT_TIMESTAMP. -/
def create_or_update_build_info (store : List BuildInfoResponse) (item : BuildInfo)
    (now : Int) (freshId : Nat) (initTs : Int) : List BuildInfoResponse :=
  match store.find? (keyB item) with
  | some ex =>
    store.map (fun r =>
      if r.id == ex.id then { r with image_url := item.image_url, timestamp := now } else r)
  | none => store ++ [newBuildInfoResponse item freshId initTs]

/-! ### Pydantic timestamp default (main.py lines 43-53) -/

/-- A POST /build-status request body before defaulting: timestamp may be
absent. -/
structure RawBuildStatusCreate where
  agent_version_id : String
  build_id : String
  phase : Option String
  step : String
  step_number : Option Int
  status : String
  message : String
  timestamp : Option Int
  environment : String
  duration_ms : Option Int
deriving DecidableEq

/-- Python evaluates the default expression datetime.now() in the class body
of BuildStatusCreate exactly once, when the module is loaded; the resulting
constant is the default of every parsed request. moduleLoadTime is that
constant and requestReceiptTime the wall-clock time at which the request is
parsed, which the source never consults for the default. -/
def parseBuildStatusCreate (moduleLoadTime : Int) (raw : RawBuildStatusCreate)
    (_requestReceiptTime : Int) : BuildStatusCreate :=
  { agent_version_id := raw.agent_version_id, build_id := raw.build_id,
    phase := raw.phase, step := raw.step, step_number := raw.step_number,
    status := raw.status, message := raw.message,
    timestamp := raw.timestamp.getD moduleLoadTime,
    environment := raw.environment, duration_ms := raw.duration_ms }

/-! ### Flat build summary -/

structure FlatBuildSummary where
  status : String
  steps_total : Nat
  steps_completed : Nat
  steps_failed : Nat
deriving DecidableEq

/-- Modelled from the spec: the flat build-summary computation behind
GET /build-summary and GET /build-latest is not present in src/main.py (the
file only carries the hierarchical summary endpoint); this definition follows
spec section 4.3 for the per-build aggregate of one build_id group. -/
def flat_build_summary (store : List BuildStatus) (bid : String) : FlatBuildSummary :=
  let evs := store.filter (fun e => e.build_id == bid)
  { status :=
      if evs.any (fun e => e.status == "Failed") then "Failed"
      else if evs.all (fun e => e.status == "Success" || e.status == "Skipped") then
        "Success"
      else "In Progress",
    steps_total := evs.length,
    steps_completed := (evs.filter (fun e => e.status == "Success")).length,
    steps_failed := (evs.filter (fun e => e.status == "Failed")).length }

/-! ### Spec-side definitions (written from the claim wording, for comparison
with the source-side definitions above) -/

/-- Spec-side phase classification, following the claim wording of C5: the
case analysis on step applied when phase is absent. -/
def specPhaseOf (step : String) : Option String :=
  if strIn "Phase" step then some step
  else if step == "BuildProcess" then some "Overall"
  else if strIn "InstallDependencies" step || strIn "ECRLogin" step then some "InstallPhase"
  else if strIn "DownloadAgent" step || strIn "ExtractAgent" step then some "PreBuildPhase"
  else if strIn "BuildImage" step then some "BuildPhase"
  else if strIn "TagImage" step || strIn "PushImage" step then some "PostBuildPhase"
  else none

/-- Spec-side rounding of C4: Python round applied to the exact value
dMicro/1000 milliseconds (round half to even). -/
def specRoundMs (dMicro : Int) : Int :=
  let q := Int.fdiv dMicro 1000
  let r := dMicro - 1000 * q
  if r * 2 < 1000 then q
  else if r * 2 > 1000 then q + 1
  else if q % 2 = 0 then q else q + 1

/-! ### Projections and invariants used by the theorems -/

/-- Overall status of a summary result, none on failure. -/
def summaryOverall : Except HTTPError Summary → Option String
  | Except.error _ => none
  | Except.ok s => some s.overall_status

/-- Status of one named phase of a summary result. -/
def phaseStatusIn (res : Except HTTPError Summary) (pname : String) : Option String :=
  match res with
  | Except.error _ => none
  | Except.ok s => (lookupA s.phases pname).map (fun p => p.status)

/-- Boolean invariant of a phase dict: every phase holding a step whose
current status is Failed itself has status Failed. -/
def phasesFailedInv (phases : List (String × PhaseSummary)) : Bool :=
  phases.all (fun p =>
    !(p.2.steps.any (fun q => q.2.status == "Failed")) || p.2.status == "Failed")

/-- The invariant lifted to a summary result (trivially true on failure). -/
def summaryFailedInv : Except HTTPError Summary → Bool
  | Except.error _ => true
  | Except.ok s => phasesFailedInv s.phases

/-- The invariant as a proposition on a fold state. -/
def FailedPhaseInv (st : FoldState) : Prop :=
  ∀ p, p ∈ st.summary.phases →
    (p.2.steps.any (fun q => q.2.status == "Failed")) = true → p.2.status = "Failed"

/-! ### Concrete inputs for counterexamples, failing inputs and witnesses -/

/-- C1 failing input: BuildProcess started, one non-Overall phase succeeded. -/
def cx1ev1 : BuildStatus :=
  { id := 1, agent_version_id := "a", build_id := "b1", phase := some "Overall",
    step := "BuildProcess", step_number := some 1, status := "Started",
    message := "m", timestamp := 0, environment := "prod", duration_ms := none }

def cx1ev2 : BuildStatus :=
  { id := 2, agent_version_id := "a", build_id := "b1", phase := some "InstallPhase",
    step := "InstallDependencies", step_number := some 2, status := "Success",
    message := "m", timestamp := 1000000, environment := "prod", duration_ms := some 5 }

/-- C2 counterexample: a step fails, then a retry Started for the same step. -/
def cx2ev1 : BuildStatus :=
  { id := 1, agent_version_id := "a", build_id := "b", phase := some "P",
    step := "S", step_number := some 1, status := "Failed", message := "x",
    timestamp := 0, environment := "prod", duration_ms := none }

def cx2ev2 : BuildStatus :=
  { id := 2, agent_version_id := "a", build_id := "b", phase := some "P",
    step := "S", step_number := some 1, status := "Started", message := "y",
    timestamp := 1000000, environment := "prod", duration_ms := none }

/-- A prior Started row for the C3 and C4 counterexamples. -/
def cx3started : BuildStatus :=
  { id := 1, agent_version_id := "a", build_id := "b", phase := none,
    step := "S", step_number := some 1, status := "Started", message := "",
    timestamp := 0, environment := "prod", duration_ms := none }

/-- C3 counterexample: terminal event supplying the explicit duration 0. -/
def cx3item : BuildStatusCreate :=
  { agent_version_id := "a", build_id := "b", phase := none, step := "S",
    step_number := some 1, status := "Success", message := "",
    timestamp := 5000000, environment := "prod", duration_ms := some 0 }

/-- C4 counterexample: terminal event 1500 microseconds after the Started. -/
def cx4item : BuildStatusCreate :=
  { agent_version_id := "a", build_id := "b", phase := none, step := "S",
    step_number := some 1, status := "Success", message := "",
    timestamp := 1500, environment := "prod", duration_ms := none }

/-- C5 counterexample: a supplied empty-string phase with a classifiable step. -/
def cx5item : BuildStatusCreate :=
  { agent_version_id := "a", build_id := "b", phase := some "",
    step := "BuildImage", step_number := some 1, status := "Started",
    message := "", timestamp := 0, environment := "prod", duration_ms := none }

/-- C6 counterexample, first event: same pair, number omitted. -/
def cx6item1 : BuildStatusCreate :=
  { agent_version_id := "a", build_id := "b", phase := none, step := "S",
    step_number := none, status := "Started", message := "", timestamp := 0,
    environment := "prod", duration_ms := none }

/-- C6 counterexample, second event: same pair, explicit number 5. -/
def cx6item2 : BuildStatusCreate := { cx6item1 with step_number := some 5, timestamp := 1 }

/-- C6 counterexample, third event: same pair, number omitted again. -/
def cx6item3 : BuildStatusCreate := { cx6item1 with timestamp := 2 }

def cx6store1 : List BuildStatus := (create_build_status [] cx6item1).2

def cx6store2 : List BuildStatus := (create_build_status cx6store1 cx6item2).2

/-- Witness input for C3: explicit nonzero duration. -/
def w3item : BuildStatusCreate :=
  { agent_version_id := "a", build_id := "b", phase := none, step := "S",
    step_number := some 1, status := "Success", message := "",
    timestamp := 9000000, environment := "prod", duration_ms := some 7 }

/-- Witness input for C4: a whole-millisecond difference of 2 ms. -/
def w4item : BuildStatusCreate :=
  { agent_version_id := "a", build_id := "b", phase := none, step := "S",
    step_number := some 1, status := "Success", message := "",
    timestamp := 2000, environment := "prod", duration_ms := none }

/-- Witness input for C5: absent phase, classifiable step. -/
def w5item : BuildStatusCreate :=
  { agent_version_id := "a", build_id := "b", phase := none,
    step := "DownloadAgent", step_number := some 1, status := "Started",
    message := "", timestamp := 0, environment := "prod", duration_ms := none }

/-- Witness store for C6: one prior row of the pair carrying number 3. -/
def w6row : BuildStatus :=
  { id := 1, agent_version_id := "a", build_id := "b", phase := none,
    step := "S", step_number := some 3, status := "Started", message := "",
    timestamp := 0, environment := "prod", duration_ms := none }

/-- Witness input for C6: same pair, number omitted. -/
def w6item : BuildStatusCreate :=
  { agent_version_id := "a", build_id := "b", phase := none, step := "S",
    step_number := none, status := "Skipped", message := "", timestamp := 1,
    environment := "prod", duration_ms := none }

/-- Witness store row for C9. -/
def w9row : BuildInfoResponse :=
  { id := 1, agent_version_id := "av", agent_uuid := "uu", version := "1.0",
    image_url := "old-url", timestamp := 10 }

/-- Witness payload for C9: same identity key, new image url. -/
def w9item : BuildInfo :=
  { agent_version_id := "av", agent_uuid := "uu", version := "1.0",
    image_url := "new-url" }

/-- Witness raw request for C10: timestamp omitted. -/
def w10raw : RawBuildStatusCreate :=
  { agent_version_id := "a", build_id := "b", phase := none, step := "S",
    step_number := none, status := "Started", message := "", timestamp := none,
    environment := "prod", duration_ms := none }

/-! ## Theorems -/

/-- The stored duration field equals the duration-inference result over the
original payload: the earlier enrichment stages only touch phase and
step_number. -/
theorem create_duration_eq (store : List BuildStatus) (item : BuildStatusCreate) :
    (create_build_status store item).1.duration_ms = inferred_duration store item := rfl

/-- The stored phase field equals the phase-inference result over the
original payload. -/
theorem create_phase_eq (store : List BuildStatus) (item : BuildStatusCreate) :
    (create_build_status store item).1.phase = inferred_phase item := rfl

/-- The stored step-number field equals the numbering result over the
original payload. -/
theorem create_step_number_eq (store : List BuildStatus) (item : BuildStatusCreate) :
    (create_build_status store item).1.step_number = inferred_step_number store item := rfl

/-- Truncation toward zero is exact on whole milliseconds. -/
theorem truncDivMs_exact (k : Int) : truncDivMs (1000 * k) = k := by
  unfold truncDivMs
  have h1 : (1000 * k).natAbs = 1000 * k.natAbs := by
    rw [Int.natAbs_mul]
    norm_num
  have h2 : (1000 * k).sign = k.sign := by
    rw [Int.sign_mul]
    have : (1000 : Int).sign = 1 := by decide
    rw [this, one_mul]
  rw [h1, h2]
  have h3 : 1000 * k.natAbs / 1000 = k.natAbs := by omega
  rw [h3]
  exact Int.sign_mul_natAbs k

/-- C3 amended: a terminal event supplying an explicit nonzero duration keeps
that duration; it is not recomputed from a prior Started event. -/
theorem c3_explicit_nonzero_duration_kept (store : List BuildStatus)
    (item : BuildStatusCreate) (d : Int)
    (hterm : item.status = "Success" ∨ item.status = "Failed")
    (hd : item.duration_ms = some d) (hnz : d ≠ 0) :
    (create_build_status store item).1.duration_ms = some d := by
  have _ := hterm
  rw [create_duration_eq]
  unfold inferred_duration
  rw [hd]
  have hfalse : optIntFalsy (some d) = false := by
    simp [optIntFalsy, hnz]
  rw [hfalse, Bool.and_false]
  simp

/-- Witness for C3 amended at a concrete input: a matching Started row exists
in the store, yet the supplied duration 7 is kept. -/
theorem c3_explicit_nonzero_duration_kept_witness :
    (create_build_status [cx3started] w3item).1.duration_ms = some 7 :=
  c3_explicit_nonzero_duration_kept [cx3started] w3item 7 (Or.inl rfl) rfl (by decide)

/-- C3 counterexample: the claim states that a supplied duration of 0 is
stored unchanged, but the Python falsiness test not item.duration_ms treats 0
as absent, so the value is recomputed (5000 ms here) instead of kept at 0. -/
theorem c3_counterexample :
    (create_build_status [cx3started] cx3item).1.duration_ms = some 5000
    ∧ (5000 : Int) ≠ 0 := by
  constructor
  · decide
  · decide

/-- C4 amended: with duration absent, a terminal event gets the truncated
(toward zero, Python int) millisecond difference from the most recent prior
Started row of the same pair, null when no such row exists; the value is
exact when the difference is a whole number of milliseconds. -/
theorem c4_duration_truncated (store : List BuildStatus) (item : BuildStatusCreate)
    (hterm : item.status = "Success" ∨ item.status = "Failed")
    (habs : item.duration_ms = none) :
    ((create_build_status store item).1.duration_ms =
       match lastWhere (fun e => e.build_id == item.build_id && e.step == item.step
           && e.status == "Started") store with
       | some e => some (truncDivMs (item.timestamp - e.timestamp))
       | none => none)
    ∧ (∀ e k, lastWhere (fun e2 => e2.build_id == item.build_id && e2.step == item.step
           && e2.status == "Started") store = some e →
         item.timestamp - e.timestamp = 1000 * k →
         (create_build_status store item).1.duration_ms = some k) := by
  have h1 : (create_build_status store item).1.duration_ms =
      match lastWhere (fun e => e.build_id == item.build_id && e.step == item.step
          && e.status == "Started") store with
      | some e => some (truncDivMs (item.timestamp - e.timestamp))
      | none => none := by
    rcases hterm with h | h <;> rw [create_duration_eq] <;>
      unfold inferred_duration <;> rw [h, habs] <;> rfl
  refine ⟨h1, ?_⟩
  intro e k hlast hk
  rw [h1, hlast]
  show some (truncDivMs (item.timestamp - e.timestamp)) = some k
  rw [hk, truncDivMs_exact]

/-- Witness for C4 amended at a concrete input: Started at 0, Success at 2000
microseconds, inferred duration exactly 2 ms. -/
theorem c4_duration_truncated_witness :
    (create_build_status [cx3started] w4item).1.duration_ms = some 2 :=
  (c4_duration_truncated [cx3started] w4item (Or.inl rfl) rfl).2 cx3started 2
    (by decide) (by decide)

/-- C4 counterexample: for a Started at 0 and a Success at 1500 microseconds,
the claimed round((t1-t0)*1000) is 2 ms, but the source stores int(1.5) = 1. -/
theorem c4_counterexample :
    (create_build_status [cx3started] cx4item).1.duration_ms = some 1
    ∧ specRoundMs (cx4item.timestamp - cx3started.timestamp) = 2
    ∧ (1 : Int) ≠ 2 := by
  refine ⟨by decide, by decide, by decide⟩

/-- The classification table lookup of the source agrees with the if-chain of
the spec wording, category by category and in the same priority order. -/
theorem find_phasePatterns (s : String) :
    phasePatterns.find? (fun c => c.2.any (fun name => strIn name s)) =
      if strIn "InstallDependencies" s || strIn "ECRLogin" s then
        some ("Install", ["InstallDependencies", "ECRLogin"])
      else if strIn "DownloadAgent" s || strIn "ExtractAgent" s then
        some ("PreBuild", ["DownloadAgent", "ExtractAgent"])
      else if strIn "BuildImage" s then some ("Build", ["BuildImage"])
      else if strIn "TagImage" s || strIn "PushImage" s then
        some ("PostBuild", ["TagImage", "PushImage"])
      else none := by
  by_cases h1 : strIn "InstallDependencies" s <;>
  by_cases h2 : strIn "ECRLogin" s <;>
  by_cases h3 : strIn "DownloadAgent" s <;>
  by_cases h4 : strIn "ExtractAgent" s <;>
  by_cases h5 : strIn "BuildImage" s <;>
  by_cases h6 : strIn "TagImage" s <;>
  by_cases h7 : strIn "PushImage" s <;>
  simp [phasePatterns, List.find?, h1, h2, h3, h4, h5, h6, h7]

/-- Core of C5 amended: with a falsy (absent or empty) phase and a non-empty
step, the stored phase follows the spec case analysis, except that an
unmatched step keeps the original falsy value rather than being reset. -/
theorem inferred_phase_falsy (item : BuildStatusCreate) (hstep : item.step ≠ "")
    (habs : optStrFalsy item.phase = true) :
    inferred_phase item =
      match specPhaseOf item.step with
      | some q => some q
      | none => item.phase := by
  unfold inferred_phase specPhaseOf
  have hne : (item.step != "") = true := by simpa using hstep
  rw [habs, hne]
  simp only [Bool.and_self, if_true]
  by_cases hp : strIn "Phase" item.step
  · simp [hp]
  · simp only [hp, if_false, Bool.false_eq_true]
    by_cases hb : item.step == "BuildProcess"
    · simp [hb]
    · simp only [hb, if_false, Bool.false_eq_true]
      rw [find_phasePatterns]
      by_cases h1 : strIn "InstallDependencies" item.step <;>
      by_cases h2 : strIn "ECRLogin" item.step <;>
      by_cases h3 : strIn "DownloadAgent" item.step <;>
      by_cases h4 : strIn "ExtractAgent" item.step <;>
      by_cases h5 : strIn "BuildImage" item.step <;>
      by_cases h6 : strIn "TagImage" item.step <;>
      by_cases h7 : strIn "PushImage" item.step <;>
      simp [h1, h2, h3, h4, h5, h6, h7]

/-- C5 amended: phase inference treats an absent and an empty-string phase
alike (Python falsiness); with phase absent the claimed case analysis holds
exactly; with phase equal to the empty string an unmatched step keeps the
empty string; a supplied non-empty phase is stored unchanged. -/
theorem c5_phase_inference (store : List BuildStatus) (item : BuildStatusCreate)
    (hstep : item.step ≠ "") :
    (item.phase = none →
       (create_build_status store item).1.phase = specPhaseOf item.step)
    ∧ (item.phase = some "" →
       (create_build_status store item).1.phase =
         some ((specPhaseOf item.step).getD ""))
    ∧ (∀ p, item.phase = some p → p ≠ "" →
       (create_build_status store item).1.phase = some p) := by
  refine ⟨?_, ?_, ?_⟩
  · intro habs
    rw [create_phase_eq, inferred_phase_falsy item hstep (by simp [optStrFalsy, habs])]
    rcases hq : specPhaseOf item.step with _ | q <;> simp [hq, habs]
  · intro habs
    rw [create_phase_eq, inferred_phase_falsy item hstep (by simp [optStrFalsy, habs])]
    rcases hq : specPhaseOf item.step with _ | q <;> simp [hq, habs]
  · intro p hp hpne
    rw [create_phase_eq]
    unfold inferred_phase
    have hfl : optStrFalsy item.phase = false := by
      rw [hp]; simp [optStrFalsy, hpne]
    rw [hfl, Bool.false_and]
    simpa using hp

/-- Witness for C5 amended at a concrete input: absent phase and step
DownloadAgent classify to PreBuildPhase. -/
theorem c5_phase_inference_witness :
    (create_build_status [] w5item).1.phase = some "PreBuildPhase" := by
  have h := (c5_phase_inference [] w5item (by decide)).1 rfl
  rw [h]
  decide

/-- C5 counterexample: the claim states a supplied phase is stored unchanged,
but a supplied empty-string phase is falsy in the Python guard
not item.phase, so the step BuildImage is classified and BuildPhase stored
instead of the supplied empty string. -/
theorem c5_counterexample :
    (create_build_status [] cx5item).1.phase = some "BuildPhase"
    ∧ some "BuildPhase" ≠ some "" := by
  refine ⟨by decide, by decide⟩

/-- C6 amended: when every stored event of a (build_id, step) pair carries the
same step_number and at least one such event exists, a new event for the pair
that omits step_number receives that number (the most recent prior event of
the pair is consulted and its number reused); the appended store again
satisfies the premise. -/
theorem c6_step_number_stability (store : List BuildStatus) (item : BuildStatusCreate)
    (n : Int)
    (hall : ∀ e, e ∈ store → e.build_id = item.build_id → e.step = item.step →
      e.step_number = some n)
    (hex : ∃ e, e ∈ store ∧ e.build_id = item.build_id ∧ e.step = item.step)
    (hnone : item.step_number = none) :
    (create_build_status store item).1.step_number = some n
    ∧ (∀ e, e ∈ (create_build_status store item).2 → e.build_id = item.build_id →
        e.step = item.step → e.step_number = some n) := by
  have hmain : (create_build_status store item).1.step_number = some n := by
    rw [create_step_number_eq]
    unfold inferred_step_number
    rw [hnone]
    obtain ⟨e0, he0, hb0, hs0⟩ := hex
    have hpred : (fun e => e.build_id == item.build_id && e.step == item.step) e0 = true := by
      simp [hb0, hs0]
    have hsome : (lastWhere (fun e => e.build_id == item.build_id
        && e.step == item.step) store).isSome = true := by
      unfold lastWhere
      rw [List.find?_isSome]
      exact ⟨e0, List.mem_reverse.mpr he0, hpred⟩
    obtain ⟨e1, he1⟩ := Option.isSome_iff_exists.mp hsome
    rw [he1]
    unfold lastWhere at he1
    have hm : e1 ∈ store := List.mem_reverse.mp (List.mem_of_find?_eq_some he1)
    have hp1 := List.find?_some he1
    have hb1 : e1.build_id = item.build_id := by
      have := (Bool.and_eq_true _ _).mp hp1
      exact beq_iff_eq.mp this.1
    have hs1 : e1.step = item.step := by
      have := (Bool.and_eq_true _ _).mp hp1
      exact beq_iff_eq.mp this.2
    show (match e1.step_number with
      | some m => some m
      | none => some ((max_step_number store item.build_id).getD 0 + 1)) = some n
    rw [hall e1 hm hb1 hs1]
  refine ⟨hmain, ?_⟩
  intro e he hb hs
  unfold create_build_status at he
  rcases List.mem_append.mp he with he | he
  · exact hall e he hb hs
  · rcases List.mem_singleton.mp he with rfl
    exact hmain

/-- Witness for C6 amended at a concrete input: the pair already carries
number 3, an omitting event receives 3. -/
theorem c6_step_number_stability_witness :
    (create_build_status [w6row] w6item).1.step_number = some 3 :=
  (c6_step_number_stability [w6row] w6item 3
    (by
      intro e he _ _
      rcases List.mem_singleton.mp he with rfl
      rfl)
    ⟨w6row, List.mem_singleton.mpr rfl, rfl, rfl⟩
    rfl).1

/-- C6 counterexample: the claim states that once a number is assigned for a
pair, every later omitting event of the pair receives the same number; here
the first event is assigned 1, an intervening event supplies 5 explicitly,
and the third (omitting) event then receives 5, not 1. -/
theorem c6_counterexample :
    (create_build_status [] cx6item1).1.step_number = some 1
    ∧ (create_build_status cx6store2 cx6item3).1.step_number = some 5
    ∧ some (1 : Int) ≠ some (5 : Int) := by
  refine ⟨by decide, by decide, by decide⟩

/-- Membership in an ordered-dict overwrite: each element is the new binding
or an element of the original list. -/
theorem mem_setA {α : Type} {l : List (String × α)} {k : String} {v : α}
    {x : String × α} (h : x ∈ setA l k v) : x = (k, v) ∨ x ∈ l := by
  unfold setA at h
  rcases List.mem_map.mp h with ⟨a, ha, hfa⟩
  by_cases hk : a.1 == k
  · left
    rw [if_pos hk] at hfa
    exact hfa.symm
  · right
    rw [if_neg hk] at hfa
    rw [← hfa]
    exact ha

/-- Membership in an ordered-dict get-or-create. -/
theorem mem_insertIfAbsent {α : Type} {l : List (String × α)} {k : String} {v : α}
    {x : String × α} (h : x ∈ insertIfAbsent l k v) : x ∈ l ∨ x = (k, v) := by
  unfold insertIfAbsent at h
  by_cases hk : (lookupA l k).isSome
  · rw [if_pos hk] at h
    exact Or.inl h
  · rw [if_neg hk] at h
    rcases List.mem_append.mp h with h | h
    · exact Or.inl h
    · exact Or.inr (List.mem_singleton.mp h)

/-- The status recomputation yields Failed whenever some step is Failed. -/
theorem phaseStatusRecompute_failed (steps : List (String × StepSummary)) (old : String)
    (h : steps.any (fun q => q.2.status == "Failed") = true) :
    phaseStatusRecompute steps old = "Failed" := by
  unfold phaseStatusRecompute
  rw [if_pos h]

/-- The steps of the updated phase entry. -/
theorem updatedPhase_steps (st : FoldState) (r : BuildStatus) :
    (updatedPhase st r).steps =
      setA (insertIfAbsent ((lookupA (insertIfAbsent st.summary.phases
          (pyPhaseName r.phase) initPhase) (pyPhaseName r.phase)).getD initPhase).steps
          r.step (initStep r))
        r.step
        (stepAfter r ((lookupA (insertIfAbsent ((lookupA (insertIfAbsent
          st.summary.phases (pyPhaseName r.phase) initPhase)
          (pyPhaseName r.phase)).getD initPhase).steps r.step (initStep r))
          r.step).getD (initStep r))) := rfl

/-- The status of the updated phase entry is the recomputation over its final
steps. -/
theorem updatedPhase_status (st : FoldState) (r : BuildStatus) :
    (updatedPhase st r).status =
      phaseStatusRecompute (updatedPhase st r).steps
        (phaseTimestamps r ((lookupA (insertIfAbsent st.summary.phases
          (pyPhaseName r.phase) initPhase) (pyPhaseName r.phase)).getD initPhase)
          (updatedPhase st r).steps).status := rfl

/-- A freshly updated phase entry whose final steps contain a Failed step has
status Failed. -/
theorem updatedPhase_failed (st : FoldState) (r : BuildStatus)
    (h : (updatedPhase st r).steps.any (fun q => q.2.status == "Failed") = true) :
    (updatedPhase st r).status = "Failed" := by
  rw [updatedPhase_status]
  exact phaseStatusRecompute_failed _ _ h

/-- The phase dict produced by one loop iteration. -/
theorem processRecord_phases (st : FoldState) (r : BuildStatus) :
    (processRecord st r).summary.phases =
      setA (insertIfAbsent st.summary.phases (pyPhaseName r.phase) initPhase)
        (pyPhaseName r.phase) (updatedPhase st r) := rfl

/-- One loop iteration preserves the failed-phase invariant. -/
theorem processRecord_inv (st : FoldState) (r : BuildStatus)
    (h : FailedPhaseInv st) : FailedPhaseInv (processRecord st r) := by
  intro p hp hfail
  rw [processRecord_phases] at hp
  rcases mem_setA hp with rfl | hp2
  · exact updatedPhase_failed st r hfail
  · rcases mem_insertIfAbsent hp2 with hp3 | rfl
    · exact h p hp3 hfail
    · simp [initPhase] at hfail

/-- The whole fold preserves the failed-phase invariant. -/
theorem foldl_processRecord_inv (records : List BuildStatus) :
    ∀ st, FailedPhaseInv st → FailedPhaseInv (records.foldl processRecord st) := by
  induction records with
  | nil => intro st h; exact h
  | cons r t ih => intro st h; exact ih _ (processRecord_inv st r h)

/-- The post-pass fixups do not change the phase dict. -/
theorem finalize_phases (st : FoldState) : (finalize st).phases = st.summary.phases := by
  unfold finalize
  rcases st.overall_started with _ | t0 <;> rcases st.overall_completed with _ | t1 <;>
    dsimp only <;> split <;> try rfl
  all_goals split <;> rfl

/-- C2 amended: after any number of fold iterations, every phase of the
summary that holds a step whose current status is Failed itself has status
Failed; therefore the phase status can leave Failed only when a subsequent
event (such as a retry Started) first overwrites the failed step status. -/
theorem c2_failed_phase_invariant (store : List BuildStatus) (bid : String)
    (env : Option String) :
    summaryFailedInv (get_build_status_summary store bid env) = true := by
  unfold get_build_status_summary
  rcases hrec : sortByTs (store.filter (matchesQuery bid env)) with _ | ⟨r, rest⟩
  · rfl
  · show phasesFailedInv (finalize ((r :: rest).foldl processRecord
      (initFold bid r.environment))).phases = true
    rw [finalize_phases]
    have hinv : FailedPhaseInv ((r :: rest).foldl processRecord
        (initFold bid r.environment)) := by
      apply foldl_processRecord_inv
      intro p hp _
      simp [initFold, initSummary] at hp
    unfold phasesFailedInv
    rw [List.all_eq_true]
    intro p hp
    by_cases hf : (p.2.steps.any (fun q => q.2.status == "Failed")) = true
    · rw [hinv p hp hf]
      simp [hf]
    · simp at hf
      simp
      exact Or.inl hf

/-- C2 counterexample: within one fold, step S of phase P fails (phase P
becomes Failed), then a retry Started event for the same step overwrites the
step status and the phase status reverts to In Progress; the final summary of
the same two-event fold reports P as In Progress. -/
theorem c2_counterexample :
    ((lookupA (processRecord (initFold "b" "prod") cx2ev1).summary.phases "P").map
        (fun p => p.status) = some "Failed")
    ∧ ((lookupA (processRecord (processRecord (initFold "b" "prod") cx2ev1)
        cx2ev2).summary.phases "P").map (fun p => p.status) = some "In Progress")
    ∧ phaseStatusIn (get_build_status_summary [cx2ev1, cx2ev2] "b" none) "P" =
        some "In Progress" := by
  refine ⟨by decide, by decide, by decide⟩

/-- C1 failing input, evaluated: BuildProcess only Started (phase Overall is
In Progress) while the only other phase InstallPhase is Success. The claim
and the spec demand overall_status Success because every phase with key other
than the literal "Overall" is Success; the source filter if p != "Overall"
compares each phase dict with the string "Overall" and never excludes
anything, so the all(...) test fails on the Overall phase and the final
overall status stays In Progress. -/
theorem c1_overall_status_eval :
    summaryOverall (get_build_status_summary [cx1ev1, cx1ev2] "b1" none) =
        some "In Progress"
    ∧ phaseStatusIn (get_build_status_summary [cx1ev1, cx1ev2] "b1" none)
        "InstallPhase" = some "Success"
    ∧ phaseStatusIn (get_build_status_summary [cx1ev1, cx1ev2] "b1" none)
        "Overall" = some "In Progress"
    ∧ (match get_build_status_summary [cx1ev1, cx1ev2] "b1" none with
       | Except.ok s => some (s.phases.map Prod.fst)
       | Except.error _ => none) = some ["Overall", "InstallPhase"] := by
  refine ⟨by decide, by decide, by decide, by decide⟩

/-- An insertion never yields the empty list. -/
theorem insertByTs_ne_nil (e : BuildStatus) (l : List BuildStatus) :
    insertByTs e l ≠ [] := by
  cases l with
  | nil => simp [insertByTs]
  | cons f t =>
    unfold insertByTs
    split <;> simp

/-- The sort is empty exactly when the input is empty. -/
theorem sortByTs_eq_nil (l : List BuildStatus) : sortByTs l = [] ↔ l = [] := by
  cases l with
  | nil => simp [sortByTs]
  | cons e t =>
    unfold sortByTs
    constructor
    · intro h
      exact absurd h (insertByTs_ne_nil e (sortByTs t))
    · intro h
      exact absurd h (by simp)

/-- C7: the hierarchical summary fails, with the 404 not-found error, exactly
when no stored event matches the build_id and the optional environment
filter; on every non-empty filtered event set it returns a summary. -/
theorem c7_summary_notfound_iff (store : List BuildStatus) (bid : String)
    (env : Option String) :
    (get_build_status_summary store bid env =
        Except.error
          { status_code := 404,
            detail := "No build status found for build_id: " ++ bid }
      ↔ store.filter (matchesQuery bid env) = [])
    ∧ ((∃ s, get_build_status_summary store bid env = Except.ok s)
      ↔ store.filter (matchesQuery bid env) ≠ []) := by
  unfold get_build_status_summary
  rcases hrec : sortByTs (store.filter (matchesQuery bid env)) with _ | ⟨r, rest⟩
  · have hnil : store.filter (matchesQuery bid env) = [] := (sortByTs_eq_nil _).mp hrec
    constructor
    · simp [hnil]
    · simp [hnil]
  · have hne : store.filter (matchesQuery bid env) ≠ [] := by
      intro hcon
      rw [hcon] at hrec
      simp [sortByTs] at hrec
    constructor
    · simp [hne]
    · simp [hne]

/-- C8: over the events of one build_id group, the flat summary counts every
event in steps_total, the Success events in steps_completed and the Failed
events in steps_failed, and its status is Failed when some event failed, else
Success when every event is Success or Skipped, else In Progress. -/
theorem c8_flat_summary (store : List BuildStatus) (bid : String) :
    (flat_build_summary store bid).steps_total =
        (store.filter (fun e => e.build_id == bid)).length
    ∧ (flat_build_summary store bid).steps_completed =
        ((store.filter (fun e => e.build_id == bid)).filter
          (fun e => e.status == "Success")).length
    ∧ (flat_build_summary store bid).steps_failed =
        ((store.filter (fun e => e.build_id == bid)).filter
          (fun e => e.status == "Failed")).length
    ∧ ((flat_build_summary store bid).status = "Failed" ↔
        (store.filter (fun e => e.build_id == bid)).any
          (fun e => e.status == "Failed") = true)
    ∧ ((flat_build_summary store bid).status = "Success" ↔
        ((store.filter (fun e => e.build_id == bid)).any
            (fun e => e.status == "Failed") = false
          ∧ (store.filter (fun e => e.build_id == bid)).all
            (fun e => e.status == "Success" || e.status == "Skipped") = true))
    ∧ ((flat_build_summary store bid).status = "In Progress" ↔
        ((store.filter (fun e => e.build_id == bid)).any
            (fun e => e.status == "Failed") = false
          ∧ (store.filter (fun e => e.build_id == bid)).all
            (fun e => e.status == "Success" || e.status == "Skipped") = false)) := by
  refine ⟨rfl, rfl, rfl, ?_, ?_, ?_⟩ <;>
    unfold flat_build_summary <;>
    cases h1 : (store.filter (fun e => e.build_id == bid)).any
      (fun e => e.status == "Failed") <;>
    cases h2 : (store.filter (fun e => e.build_id == bid)).all
      (fun e => e.status == "Success" || e.status == "Skipped") <;>
    simp [h1, h2]

/-- C10: the pydantic default datetime.now() of BuildStatusCreate is evaluated
once at module load; every request that omits timestamp receives that same
constant, never its own receipt time. -/
theorem c10_timestamp_default (moduleLoadTime : Int) (raw : RawBuildStatusCreate)
    (r1 r2 : Int) (habs : raw.timestamp = none) :
    (parseBuildStatusCreate moduleLoadTime raw r1).timestamp =
        (parseBuildStatusCreate moduleLoadTime raw r2).timestamp
    ∧ (parseBuildStatusCreate moduleLoadTime raw r1).timestamp = moduleLoadTime := by
  unfold parseBuildStatusCreate
  rw [habs]
  exact ⟨rfl, rfl⟩

/-- Witness for C10 at a concrete input: module loaded at 42, requests parsed
at receipt times 100 and 200, both stored timestamps are 42. -/
theorem c10_timestamp_default_witness :
    (parseBuildStatusCreate 42 w10raw 100).timestamp =
        (parseBuildStatusCreate 42 w10raw 200).timestamp
    ∧ (parseBuildStatusCreate 42 w10raw 100).timestamp = 42 :=
  c10_timestamp_default 42 w10raw 100 200 rfl

/-- C9: the BuildInfo upsert preserves at-most-one-record-per-identity-key
(given key-unique and id-unique stores): a row with the key and the submitted
image_url exists afterwards; when a row with the key existed, nothing is
created or deleted and that row is overwritten in place with the new
image_url and the update timestamp; on first submission for the key exactly
the new row is appended; rows under other keys are untouched. -/
theorem c9_build_info_upsert (store : List BuildInfoResponse) (item : BuildInfo)
    (now : Int) (freshId : Nat) (initTs : Int)
    (hkey : ∀ r1, r1 ∈ store → ∀ r2, r2 ∈ store → sameKeyB r1 r2 = true → r1 = r2)
    (hid : ∀ r1, r1 ∈ store → ∀ r2, r2 ∈ store → r1.id = r2.id → r1 = r2) :
    (∀ r1, r1 ∈ create_or_update_build_info store item now freshId initTs →
       ∀ r2, r2 ∈ create_or_update_build_info store item now freshId initTs →
         sameKeyB r1 r2 = true → r1 = r2)
    ∧ (∃ r, r ∈ create_or_update_build_info store item now freshId initTs
        ∧ keyB item r = true ∧ r.image_url = item.image_url)
    ∧ (∀ ex, ex ∈ store → keyB item ex = true →
        (create_or_update_build_info store item now freshId initTs).length = store.length
        ∧ { ex with image_url := item.image_url, timestamp := now } ∈
            create_or_update_build_info store item now freshId initTs)
    ∧ ((∀ r, r ∈ store → keyB item r = false) →
        create_or_update_build_info store item now freshId initTs =
          store ++ [newBuildInfoResponse item freshId initTs])
    ∧ (∀ r, r ∈ store → keyB item r = false →
        r ∈ create_or_update_build_info store item now freshId initTs) := by
  rcases hfind : store.find? (keyB item) with _ | ex
  case none =>
    have hnone : ∀ r, r ∈ store → keyB item r = false := by
      intro r hr
      have := List.find?_eq_none.mp hfind r hr
      simpa using this
    have hstore : create_or_update_build_info store item now freshId initTs =
        store ++ [newBuildInfoResponse item freshId initTs] := by
      unfold create_or_update_build_info
      rw [hfind]
    have hnewkey : keyB item (newBuildInfoResponse item freshId initTs) = true := by
      simp [keyB, newBuildInfoResponse]
    refine ⟨?_, ?_, ?_, ?_, ?_⟩
    · intro r1 h1 r2 h2 hsk
      rw [hstore] at h1 h2
      rcases List.mem_append.mp h1 with h1 | h1 <;>
        rcases List.mem_append.mp h2 with h2 | h2
      · exact hkey r1 h1 r2 h2 hsk
      · rcases List.mem_singleton.mp h2 with rfl
        exfalso
        have hk1 : keyB item r1 = true := by
          simp only [sameKeyB, newBuildInfoResponse, Bool.and_eq_true,
            beq_iff_eq] at hsk
          simp only [keyB, Bool.and_eq_true, beq_iff_eq]
          exact hsk
        rw [hnone r1 h1] at hk1
        exact Bool.false_ne_true hk1
      · rcases List.mem_singleton.mp h1 with rfl
        exfalso
        have hk2 : keyB item r2 = true := by
          simp only [sameKeyB, newBuildInfoResponse, Bool.and_eq_true,
            beq_iff_eq] at hsk
          simp only [keyB, Bool.and_eq_true, beq_iff_eq]
          exact ⟨⟨hsk.1.1.symm, hsk.1.2.symm⟩, hsk.2.symm⟩
        rw [hnone r2 h2] at hk2
        exact Bool.false_ne_true hk2
      · rw [List.mem_singleton.mp h1, List.mem_singleton.mp h2]
    · refine ⟨newBuildInfoResponse item freshId initTs, ?_, hnewkey, rfl⟩
      rw [hstore]
      exact List.mem_append_right _ (List.mem_singleton.mpr rfl)
    · intro ex hex hkex
      rw [hnone ex hex] at hkex
      exact absurd hkex Bool.false_ne_true
    · intro _
      exact hstore
    · intro r hr _
      rw [hstore]
      exact List.mem_append_left _ hr
  case some =>
    have hexmem : ex ∈ store := List.mem_of_find?_eq_some hfind
    have hexkey := List.find?_some hfind
    have hstore : create_or_update_build_info store item now freshId initTs =
        store.map (fun r =>
          if r.id == ex.id then { r with image_url := item.image_url, timestamp := now }
          else r) := by
      unfold create_or_update_build_info
      rw [hfind]
    have hmap : ∀ a, a ∈ store →
        (if a.id == ex.id then { a with image_url := item.image_url, timestamp := now }
         else a) =
        if a = ex then { ex with image_url := item.image_url, timestamp := now }
        else a := by
      intro a ha
      by_cases h : a.id = ex.id
      · have haex : a = ex := hid a ha ex hexmem h
        simp [haex]
      · have h1 : (a.id == ex.id) = false := by simp [h]
        have h2 : ¬(a = ex) := fun hc => h (by rw [hc])
        rw [h1, if_neg h2]
        simp
    have hupdmem : { ex with image_url := item.image_url, timestamp := now } ∈
        create_or_update_build_info store item now freshId initTs := by
      rw [hstore]
      refine List.mem_map.mpr ⟨ex, hexmem, ?_⟩
      rw [hmap ex hexmem, if_pos rfl]
    have hupdkey : keyB item { ex with image_url := item.image_url, timestamp := now } =
        true := hexkey
    refine ⟨?_, ?_, ?_, ?_, ?_⟩
    · intro r1 h1 r2 h2 hsk
      rw [hstore] at h1 h2
      rcases List.mem_map.mp h1 with ⟨a1, ha1, hf1⟩
      rcases List.mem_map.mp h2 with ⟨a2, ha2, hf2⟩
      rw [hmap a1 ha1] at hf1
      rw [hmap a2 ha2] at hf2
      by_cases e1 : a1 = ex <;> by_cases e2 : a2 = ex
      · rw [if_pos e1] at hf1
        rw [if_pos e2] at hf2
        rw [← hf1, ← hf2]
      · rw [if_pos e1] at hf1
        rw [if_neg e2] at hf2
        exfalso
        rw [← hf1, ← hf2] at hsk
        have hsk2 : sameKeyB ex a2 = true := hsk
        have := hkey ex hexmem a2 ha2 hsk2
        exact e2 this.symm
      · rw [if_neg e1] at hf1
        rw [if_pos e2] at hf2
        exfalso
        rw [← hf1, ← hf2] at hsk
        have hsk2 : sameKeyB a1 ex = true := hsk
        have := hkey a1 ha1 ex hexmem hsk2
        exact e1 this
      · rw [if_neg e1] at hf1
        rw [if_neg e2] at hf2
        rw [← hf1, ← hf2]
        rw [← hf1, ← hf2] at hsk
        exact hkey a1 ha1 a2 ha2 hsk
    · exact ⟨{ ex with image_url := item.image_url, timestamp := now },
        hupdmem, hupdkey, rfl⟩
    · intro ex2 hex2 hkex2
      have hsk : sameKeyB ex2 ex = true := by
        simp only [keyB, Bool.and_eq_true, beq_iff_eq] at hkex2 hexkey
        simp only [sameKeyB, Bool.and_eq_true, beq_iff_eq]
        exact ⟨⟨hkex2.1.1.trans hexkey.1.1.symm, hkex2.1.2.trans hexkey.1.2.symm⟩,
          hkex2.2.trans hexkey.2.symm⟩
      have hex2ex : ex2 = ex := hkey ex2 hex2 ex hexmem hsk
      constructor
      · rw [hstore]
        exact List.length_map _ _
      · rw [hex2ex]
        exact hupdmem
    · intro hall
      exfalso
      rw [hall ex hexmem] at hexkey
      exact Bool.false_ne_true hexkey
    · intro r hr hkr
      have hne : ¬(r = ex) := by
        intro hc
        rw [hc, hexkey] at hkr
        exact Bool.noConfusion hkr
      rw [hstore]
      refine List.mem_map.mpr ⟨r, hr, ?_⟩
      rw [hmap r hr, if_neg hne]

/-- Witness for C9 at a concrete input: one stored row under the key is
overwritten in place with the new url and timestamp 50, and the store keeps
length 1. -/
theorem c9_build_info_upsert_witness :
    (create_or_update_build_info [w9row] w9item 50 2 60).length = 1
    ∧ { w9row with image_url := "new-url", timestamp := (50 : Int) } ∈
        create_or_update_build_info [w9row] w9item 50 2 60 := by
  have h := (c9_build_info_upsert [w9row] w9item 50 2 60
    (by
      intro r1 h1 r2 h2 _
      rcases List.mem_singleton.mp h1 with rfl
      rcases List.mem_singleton.mp h2 with rfl
      rfl)
    (by
      intro r1 h1 r2 h2 _
      rcases List.mem_singleton.mp h1 with rfl
      rcases List.mem_singleton.mp h2 with rfl
      rfl)).2.2.1 w9row (List.mem_singleton.mpr rfl) (by decide)
  exact h

end BuildApi
